import Mathlib

/-!
Verification development for the truepositive-assistant bot core.

The Rust sources are shallowly embedded: each `def` below is translated from
the function of the same (or clearly indicated) name in `src/commands.rs`,
`src/states.rs`, `src/bot.rs`, `src/models.rs` or `src/main.rs`.  Machine
integers (`i32`) are modelled as `Int` with explicit two's-complement
wrap-around where overflow matters; Rust panics are modelled as `Option.none`
or a dedicated `panics` outcome; fallible code returns `Except`/`Option`.
-/

/-- Two's-complement wrap-around of an `i32` arithmetic result (Rust release
semantics: `i32` addition and subtraction wrap modulo 2^32). -/
def wrap32 (x : Int) : Int := (x + 2147483648) % 4294967296 - 2147483648

/-- An `Int` lies in the `i32` range. -/
def inRange32 (x : Int) : Prop := -2147483648 ≤ x ∧ x < 2147483648

instance (x : Int) : Decidable (inRange32 x) := by
  unfold inRange32; infer_instance

/-- Source `commands.rs`: `pub struct BacklogParams { top: i32, skip: i32 }`
(field serde renames: `t`, `s`). -/
structure BacklogParams where
  top : Int
  skip : Int
  deriving DecidableEq

namespace BacklogParams

/-- Source `commands.rs`: `BacklogParams::new(top)` gives `{ top, skip: 0 }`. -/
def new (top : Int) : BacklogParams := ⟨top, 0⟩

/-- Source `commands.rs`: `BacklogParams::new_with_skip(top, skip)` gives `{ top, skip }`. -/
def new_with_skip (top skip : Int) : BacklogParams := ⟨top, skip⟩

/-- Source `commands.rs`: `next` gives `{ top, skip: skip + top }` (i32 addition). -/
def next (p : BacklogParams) : BacklogParams := ⟨p.top, wrap32 (p.skip + p.top)⟩

/-- Source `commands.rs`: `prev` gives `Some { top, skip: skip - top }` when
`skip - top >= 0`, `None` otherwise (i32 subtraction). -/
def prev (p : BacklogParams) : Option BacklogParams :=
  if 0 ≤ wrap32 (p.skip - p.top) then some ⟨p.top, wrap32 (p.skip - p.top)⟩ else none

end BacklogParams

/-- The spec invariant on `BacklogParams`: `top` positive, `skip` a
non-negative multiple of `top`. -/
def BPinv (p : BacklogParams) : Prop :=
  0 < p.top ∧ 0 ≤ p.skip ∧ p.skip % p.top = 0

instance (p : BacklogParams) : Decidable (BPinv p) := by
  unfold BPinv; infer_instance

/-! Section: JSON values (the wire format used by `serde_json` in the sources)

Payload and session serialization in the sources goes through `serde_json`.
JSON documents are modelled by `Json`; `Json.render` is the compact
serialization `serde_json::to_string` produces and `Json.parse` the parser
behind `serde_json::from_str` / `from_slice`.  Numbers are modelled as
integers, the only numeric type any serialized type in this program uses. -/

inductive Json where
  | null : Json
  | bool (b : Bool) : Json
  | num (n : Int) : Json
  | str (s : String) : Json
  | arr (elems : List Json) : Json
  | obj (fields : List (String × Json)) : Json

/-- Left brace character (written via its code point). -/
def lbrace : Char := Char.ofNat 123

/-- Right brace character (written via its code point). -/
def rbrace : Char := Char.ofNat 125

/-- Lower-case hexadecimal digit. -/
def hexDigitChar (n : Nat) : Char :=
  if n < 10 then Char.ofNat (48 + n) else Char.ofNat (87 + n % 16)

/-- How `serde_json` escapes one character inside a JSON string. -/
def escapeJsonChar (c : Char) : String :=
  if c = '"' then "\\\""
  else if c = '\\' then "\\\\"
  else if c = '\n' then "\\n"
  else if c = '\r' then "\\r"
  else if c = '\t' then "\\t"
  else if c = Char.ofNat 8 then "\\b"
  else if c = Char.ofNat 12 then "\\f"
  else if c.toNat < 32 then
    String.mk ['\\', 'u', '0', '0', hexDigitChar (c.toNat / 16), hexDigitChar (c.toNat % 16)]
  else String.singleton c

/-- Source `serde_json` rendering of a JSON string literal. -/
def renderJsonString (s : String) : String :=
  "\"" ++ String.join (s.data.map escapeJsonChar) ++ "\""

mutual

/-- Compact rendering, exactly as `serde_json::to_string` (no whitespace). -/
def Json.render : Json → String
  | .null => "null"
  | .bool true => "true"
  | .bool false => "false"
  | .num n => toString n
  | .str s => renderJsonString s
  | .arr elems => "[" ++ renderJsonList elems ++ "]"
  | .obj fields => String.singleton lbrace ++ renderJsonFields fields ++ String.singleton rbrace

def renderJsonList : List Json → String
  | [] => ""
  | [x] => x.render
  | x :: y :: xs => x.render ++ "," ++ renderJsonList (y :: xs)

def renderJsonFields : List (String × Json) → String
  | [] => ""
  | [(k, v)] => renderJsonString k ++ ":" ++ v.render
  | (k, v) :: f :: fs => renderJsonString k ++ ":" ++ v.render ++ "," ++ renderJsonFields (f :: fs)

end

/-- Skip JSON whitespace. -/
def skipWs : List Char → List Char
  | [] => []
  | c :: cs => if c = ' ' ∨ c = '\t' ∨ c = '\n' ∨ c = '\r' then skipWs cs else c :: cs

/-- Value of a hexadecimal digit. -/
def hexVal (c : Char) : Option Nat :=
  if '0' ≤ c ∧ c ≤ '9' then some (c.toNat - 48)
  else if 'a' ≤ c ∧ c ≤ 'f' then some (c.toNat - 87)
  else if 'A' ≤ c ∧ c ≤ 'F' then some (c.toNat - 55)
  else none

/-- Parse exactly four hexadecimal digits. -/
def parseHex4 : List Char → Option (Nat × List Char)
  | a :: b :: c :: d :: rest => do
    let va ← hexVal a
    let vb ← hexVal b
    let vc ← hexVal c
    let vd ← hexVal d
    pure (((va * 16 + vb) * 16 + vc) * 16 + vd, rest)
  | _ => none

/-- Parse the body of a JSON string literal (the opening quote already
consumed), decoding escapes the way `serde_json` does. -/
def parseJsonStringBody : Nat → List Char → Option (List Char × List Char)
  | 0, _ => none
  | _, [] => none
  | fuel + 1, c :: cs =>
    if c = '"' then some ([], cs)
    else if c = '\\' then
      match cs with
      | [] => none
      | e :: cs2 =>
        let decoded : Option (Char × List Char) :=
          if e = '"' then some ('"', cs2)
          else if e = '\\' then some ('\\', cs2)
          else if e = '/' then some ('/', cs2)
          else if e = 'b' then some (Char.ofNat 8, cs2)
          else if e = 'f' then some (Char.ofNat 12, cs2)
          else if e = 'n' then some ('\n', cs2)
          else if e = 'r' then some ('\r', cs2)
          else if e = 't' then some ('\t', cs2)
          else if e = 'u' then
            match parseHex4 cs2 with
            | some (n, rest) => some (Char.ofNat n, rest)
            | none => none
          else none
        match decoded with
        | some (ch, rest) =>
          match parseJsonStringBody fuel rest with
          | some (body, rest2) => some (ch :: body, rest2)
          | none => none
        | none => none
    else
      match parseJsonStringBody fuel cs with
      | some (body, rest) => some (c :: body, rest)
      | none => none

/-- Parse a (decimal, optionally negative) integer literal. -/
def parseJsonDigits : List Char → Option (Nat × List Char)
  | cs =>
    let ds := cs.takeWhile (fun c => '0' ≤ c ∧ c ≤ '9')
    if ds.isEmpty then none
    else some (ds.foldl (fun acc c => acc * 10 + (c.toNat - 48)) 0, cs.drop ds.length)

mutual

/-- Parse one JSON value.  Fuel decreases on every nested call; callers supply
more fuel than any document of the given length can need. -/
def parseJsonValue : Nat → List Char → Option (Json × List Char)
  | 0, _ => none
  | fuel + 1, cs =>
    match skipWs cs with
    | [] => none
    | c :: cs1 =>
      if c = 'n' then
        match cs1 with
        | 'u' :: 'l' :: 'l' :: rest => some (.null, rest)
        | _ => none
      else if c = 't' then
        match cs1 with
        | 'r' :: 'u' :: 'e' :: rest => some (.bool true, rest)
        | _ => none
      else if c = 'f' then
        match cs1 with
        | 'a' :: 'l' :: 's' :: 'e' :: rest => some (.bool false, rest)
        | _ => none
      else if c = '"' then
        match parseJsonStringBody (fuel + 1) cs1 with
        | some (body, rest) => some (.str (String.mk body), rest)
        | none => none
      else if c = '-' then
        match parseJsonDigits cs1 with
        | some (n, rest) => some (.num (-(n : Int)), rest)
        | none => none
      else if '0' ≤ c ∧ c ≤ '9' then
        match parseJsonDigits (c :: cs1) with
        | some (n, rest) => some (.num (n : Int), rest)
        | none => none
      else if c = '[' then
        match skipWs cs1 with
        | ']' :: rest => some (.arr [], rest)
        | cs2 =>
          match parseJsonValue fuel cs2 with
          | some (v, rest) =>
            match parseJsonArrayRest fuel rest with
            | some (vs, rest2) => some (.arr (v :: vs), rest2)
            | none => none
          | none => none
      else if c = lbrace then
        match skipWs cs1 with
        | d :: rest =>
          if d = rbrace then some (.obj [], rest)
          else
            match parseJsonMember fuel (d :: rest) with
            | some (kv, rest2) =>
              match parseJsonObjectRest fuel rest2 with
              | some (kvs, rest3) => some (.obj (kv :: kvs), rest3)
              | none => none
            | none => none
        | [] => none
      else none

/-- After one array element: `, value ...` repeated, then `]`. -/
def parseJsonArrayRest : Nat → List Char → Option (List Json × List Char)
  | 0, _ => none
  | fuel + 1, cs =>
    match skipWs cs with
    | ']' :: rest => some ([], rest)
    | ',' :: rest =>
      match parseJsonValue fuel rest with
      | some (v, rest2) =>
        match parseJsonArrayRest fuel rest2 with
        | some (vs, rest3) => some (v :: vs, rest3)
        | none => none
      | none => none
    | _ => none

/-- One `"key": value` object member. -/
def parseJsonMember : Nat → List Char → Option ((String × Json) × List Char)
  | 0, _ => none
  | fuel + 1, cs =>
    match skipWs cs with
    | '"' :: cs1 =>
      match parseJsonStringBody (fuel + 1) cs1 with
      | some (key, rest) =>
        match skipWs rest with
        | ':' :: rest2 =>
          match parseJsonValue fuel rest2 with
          | some (v, rest3) => some ((String.mk key, v), rest3)
          | none => none
        | _ => none
      | none => none
    | _ => none

/-- After one object member: `, member ...` repeated, then the closing brace. -/
def parseJsonObjectRest : Nat → List Char → Option (List (String × Json) × List Char)
  | 0, _ => none
  | fuel + 1, cs =>
    match skipWs cs with
    | ',' :: rest =>
      match parseJsonMember fuel rest with
      | some (kv, rest2) =>
        match parseJsonObjectRest fuel rest2 with
        | some (kvs, rest3) => some (kv :: kvs, rest3)
        | none => none
      | none => none
    | d :: rest => if d = rbrace then some ([], rest) else none
    | [] => none

end

/-- Source `serde_json::from_str` up to the JSON-document level: parse one value and
require only trailing whitespace after it. -/
def Json.parse (s : String) : Option Json :=
  match parseJsonValue (2 * s.length + 4) s.data with
  | some (j, rest) => if (skipWs rest).isEmpty then some j else none
  | none => none

/-! Section: `commands.rs`: callback payloads and the self-describing codec -/

/-- Source `commands.rs`: `pub struct VoteForIssueParams { id: String, has_vote: bool }`
(serde renames: `i`, `v`). -/
structure VoteForIssueParams where
  id : String
  has_vote : Bool
  deriving DecidableEq

/-- Source `commands.rs`: `enum CallbackParams` with `#[serde(tag = "_t")]` and
variant renames `bn`, `bp`, `vi`, `bs`. -/
inductive CallbackParams where
  | BacklogNext (p : BacklogParams)
  | BacklogPrev (p : BacklogParams)
  | VoteForIssue (p : VoteForIssueParams)
  | BacklogStop
  deriving DecidableEq

/-- Look up a field of a JSON object (first occurrence, as `serde_json`). -/
def Json.getField? (j : Json) (k : String) : Option Json :=
  match j with
  | .obj fields => (fields.find? (fun f => f.1 == k)).map (fun f => f.2)
  | _ => none

/-- Deserialize an `i32` (an integer JSON number within the `i32` range). -/
def jsonAsI32 : Json → Option Int
  | .num n => if -2147483648 ≤ n ∧ n < 2147483648 then some n else none
  | _ => none

/-- Deserialize a `String`. -/
def jsonAsStr : Json → Option String
  | .str s => some s
  | _ => none

/-- Deserialize a `bool`. -/
def jsonAsBool : Json → Option Bool
  | .bool b => some b
  | _ => none

/-- serde serialization of `BacklogParams` bodies (field renames `t`, `s`),
as embedded in the internally tagged `CallbackParams` object. -/
def BacklogParams.toJsonFields (p : BacklogParams) : List (String × Json) :=
  [("t", .num p.top), ("s", .num p.skip)]

/-- serde deserialization of `BacklogParams` out of the tagged object
(required fields `t`, `s`; unknown fields ignored). -/
def BacklogParams.fromTaggedObj (j : Json) : Option BacklogParams := do
  let t ← j.getField? "t" >>= jsonAsI32
  let s ← j.getField? "s" >>= jsonAsI32
  pure ⟨t, s⟩

/-- serde deserialization of `VoteForIssueParams` out of the tagged object
(required fields `i`, `v`). -/
def VoteForIssueParams.fromTaggedObj (j : Json) : Option VoteForIssueParams := do
  let i ← j.getField? "i" >>= jsonAsStr
  let v ← j.getField? "v" >>= jsonAsBool
  pure ⟨i, v⟩

/-- Source `serde_json::to_string(&CallbackParams)`: internally tagged
representation, tag key `_t` first, then the variant fields in order. -/
def CallbackParams.toJson : CallbackParams → Json
  | .BacklogNext p => .obj (("_t", .str "bn") :: p.toJsonFields)
  | .BacklogPrev p => .obj (("_t", .str "bp") :: p.toJsonFields)
  | .VoteForIssue p => .obj [("_t", .str "vi"), ("i", .str p.id), ("v", .bool p.has_vote)]
  | .BacklogStop => .obj [("_t", .str "bs")]

/-- serde deserialization of the internally tagged `CallbackParams` from a
JSON document: the `_t` tag selects the variant, the remaining fields feed
the variant payload. -/
def CallbackParams.fromJson (j : Json) : Option CallbackParams := do
  let tag ← j.getField? "_t" >>= jsonAsStr
  match tag with
  | "bn" => (BacklogParams.fromTaggedObj j).map .BacklogNext
  | "bp" => (BacklogParams.fromTaggedObj j).map .BacklogPrev
  | "vi" => (VoteForIssueParams.fromTaggedObj j).map .VoteForIssue
  | "bs" => pure .BacklogStop
  | _ => none

/-- Source `serde_json::from_str::<CallbackParams>(data)` in
`commands.rs` (`TryFrom<CallbackQuery> for BotCommand`). -/
def decodeCallbackParams (s : String) : Option CallbackParams :=
  (Json.parse s).bind CallbackParams.fromJson

/-- A telegram inline keyboard button: caption plus callback payload string. -/
structure InlineKeyboardButton where
  text : String
  callback_data : String
  deriving DecidableEq

/-- Source `commands.rs`: `impl From<CallbackParams> for InlineKeyboardButton`.
The source computes the caption, serializes the payload with
`serde_json::to_string` and PANICS (`panic!("Callback paramater too big")`)
when the serialized form is longer than 64 bytes; the panic is modelled as
`none`.  The caption computation is split out as `callbackButtonText`. -/
def callbackButtonText (item : CallbackParams) : String :=
  match item with
  | .BacklogStop => "stop"
  | .BacklogNext _ => "next"
  | .BacklogPrev _ => "prev"
  | .VoteForIssue p => if p.has_vote then "🌟" ++ " " ++ p.id else p.id

def inlineKeyboardButtonOfCallbackParams (item : CallbackParams) : Option InlineKeyboardButton :=
  let text := callbackButtonText item
  let val := (CallbackParams.toJson item).render
  if 64 < val.utf8ByteSize then none
  else some ⟨text, val⟩


/-! Section: Telegram event model and the Command Normalizer (`commands.rs`) -/

/-- Telegram user (the fields the sources use). -/
structure TgUser where
  id : Int
  first_name : String
  is_bot : Bool
  deriving DecidableEq

/-- The message kinds the sources distinguish: text vs everything else. -/
inductive MessageKind where
  | text (data : String)
  | other
  deriving DecidableEq

/-- Telegram message (the fields the sources use; `sender` is the source
field `from`, a Lean keyword). -/
structure Message where
  sender : TgUser
  chat_id : Int
  kind : MessageKind
  deriving DecidableEq

/-- Telegram callback query (the fields the sources use). -/
structure CallbackQuery where
  sender : TgUser
  message : Option Message
  data : Option String
  deriving DecidableEq

/-- Telegram update kinds the sources distinguish. -/
inductive Update where
  | message (m : Message)
  | callback_query (cb : CallbackQuery)
  | other
  deriving DecidableEq

/-- The distinct `bail!`/propagated error cases of the `TryFrom` impls in
`commands.rs`. -/
inductive NormError where
  | unsupportedUpdate
  | unsupportedMessageKind
  | noCallbackData
  | serdeError
  deriving DecidableEq

/-- Source `commands.rs`: `enum BotCommand`.  Note: there is no `Invalid` variant. -/
inductive BotCommand where
  | Start (msg : Message)
  | Backlog (msg : Message) (p : BacklogParams)
  | Login (msg : Message)
  | Stop (msg : Message)
  | Text (msg : Message)
  | NewIssue (msg : Message)
  | BacklogStop (cb : CallbackQuery)
  | BacklogNext (cb : CallbackQuery) (p : BacklogParams)
  | BacklogPrev (cb : CallbackQuery) (p : BacklogParams)
  | BacklogVoteForIssue (cb : CallbackQuery) (p : VoteForIssueParams)
  | Save (msg : Message)
  | Cancel (msg : Message)
  deriving DecidableEq

/-- Source `commands.rs`: `BotCommand::get_message_text`. -/
def BotCommand.get_message_text : BotCommand → Option String
  | .Text msg =>
    match msg.kind with
    | .text data => some data
    | _ => none
  | _ => none

/-- Source `commands.rs`: `impl TryFrom<Message> for BotCommand` (keyword table on
text messages; non-text kinds bail with "Unsupported message kind"). -/
def BotCommand.tryFromMessage (msg : Message) : Except NormError BotCommand :=
  match msg.kind with
  | .text data =>
    .ok (match data with
      | "/backlog" => .Backlog msg (BacklogParams.new 5)
      | "/start" => .Start msg
      | "/login" => .Login msg
      | "/stop" => .Stop msg
      | "/new_issue" => .NewIssue msg
      | "/save" => .Save msg
      | "/cancel" => .Cancel msg
      | _ => .Text msg)
  | _ => .error .unsupportedMessageKind

/-- Source `commands.rs`: `impl TryFrom<CallbackQuery> for BotCommand`.  The serde
decode failure is propagated with `?` (so normalization ABORTS on malformed
callback data); absent data bails with "No callback query data". -/
def BotCommand.tryFromCallbackQuery (cb : CallbackQuery) : Except NormError BotCommand :=
  match cb.data with
  | some data =>
    match decodeCallbackParams data with
    | some .BacklogStop => .ok (.BacklogStop cb)
    | some (.BacklogNext p) => .ok (.BacklogNext cb p)
    | some (.BacklogPrev p) => .ok (.BacklogPrev cb p)
    | some (.VoteForIssue p) => .ok (.BacklogVoteForIssue cb p)
    | none => .error .serdeError
  | none => .error .noCallbackData

/-- Source `commands.rs`: `impl TryFrom<Update> for BotCommand` (other update kinds
bail with "Unsupported update type"). -/
def BotCommand.tryFromUpdate : Update → Except NormError BotCommand
  | .message m => BotCommand.tryFromMessage m
  | .callback_query cb => BotCommand.tryFromCallbackQuery cb
  | .other => .error .unsupportedUpdate

namespace Main

/-! Section: `main.rs` (superseded revision): the opaque-handle codec

`main.rs` re-declares `BacklogParams` and `VoteForIssueParams` with the same
fields as `commands.rs` (reused here) and its own `CallbackParams` that has an
extra `Invalid` variant and is never serialized: buttons carry a random
uuid pointing into a process-wide LRU cache of 100 entries. -/

/-- Source `main.rs`: `enum CallbackParams` (with the `Invalid` marker variant). -/
inductive CallbackParams where
  | BacklogNext (p : BacklogParams)
  | BacklogPrev (p : BacklogParams)
  | VoteForIssue (p : VoteForIssueParams)
  | BacklogStop
  | Invalid
  deriving DecidableEq

end Main

/-- The `lru` crate cache: bounded list of entries, most recent first. -/
structure LruCache (K V : Type) where
  cap : Nat
  entries : List (K × V)

/-- Source `LruCache::put`: replace any entry with the same key, place the new entry
in the most-recent position, evict the least recently used beyond capacity. -/
def LruCache.put [DecidableEq K] (c : LruCache K V) (k : K) (v : V) : LruCache K V :=
  ⟨c.cap, ((k, v) :: c.entries.filter (fun e => decide (e.1 ≠ k))).take c.cap⟩

/-- Source `LruCache::pop`: remove and return the entry with the given key. -/
def LruCache.pop [DecidableEq K] (c : LruCache K V) (k : K) :
    Option V × LruCache K V :=
  match c.entries.find? (fun e => decide (e.1 = k)) with
  | some e => (some e.2, ⟨c.cap, c.entries.filter (fun e => decide (e.1 ≠ k))⟩)
  | none => (none, c)

/-- Fixed-width lower-case hexadecimal rendering (most significant first). -/
def uuidHexFixed : Nat → Nat → List Char
  | 0, _ => []
  | w + 1, n => uuidHexFixed w (n / 16) ++ [hexDigitChar (n % 16)]

/-- A uuid value is its 128-bit number; `Uuid::new_v4` randomness is passed in
by callers of the encode step. -/
def Uuid.toString (u : Nat) : String :=
  let ds := uuidHexFixed 32 u
  String.mk (ds.take 8 ++ '-' :: ((ds.drop 8).take 4) ++ '-' :: ((ds.drop 12).take 4)
    ++ '-' :: ((ds.drop 16).take 4) ++ '-' :: ds.drop 20)

/-- Fold hexadecimal digits into a number; any non-hex character fails. -/
def uuidParseHexChars (cs : List Char) : Option Nat :=
  cs.foldl (fun acc c => acc.bind (fun a => (hexVal c).map (fun v => a * 16 + v))) (some 0)

/-- Source `Uuid::parse_str`, for the canonical hyphenated form (which
`Uuid::to_string` emits) and the plain 32-digit form. -/
def Uuid.parse_str (s : String) : Option Nat :=
  let cs := s.data
  if cs.length = 32 then uuidParseHexChars cs
  else if cs.length = 36 then
    if cs.get? 8 = some '-' ∧ cs.get? 13 = some '-' ∧ cs.get? 18 = some '-' ∧ cs.get? 23 = some '-' then
      uuidParseHexChars (cs.take 8 ++ ((cs.drop 9).take 4) ++ ((cs.drop 14).take 4)
        ++ ((cs.drop 19).take 4) ++ cs.drop 24)
    else none
  else none

namespace Main

/-- Source `main.rs`: `impl From<CallbackParams> for InlineKeyboardButton`
(opaque-handle strategy).  The caption comes from the variant (`Invalid`
PANICS — "Do not use in keyboard" — modelled as `none`); a fresh v4 uuid
(drawn from the process RNG in the source, passed as an argument here) keys
the payload into the shared LRU cache; the button data is the uuid's
canonical text form. -/
def buttonText : CallbackParams → Option String
  | .BacklogStop => some "stop"
  | .BacklogNext _ => some "next"
  | .BacklogPrev _ => some "prev"
  | .VoteForIssue p => some p.id
  | .Invalid => none

def buttonOfCallbackParams (cache : LruCache Nat CallbackParams) (uuid : Nat)
    (item : CallbackParams) :
    Option (InlineKeyboardButton × LruCache Nat CallbackParams) :=
  (buttonText item).map (fun t => (⟨t, Uuid.toString uuid⟩, cache.put uuid item))

/-- Source `main.rs`: `extract_params`.  Missing data gives `None`; a payload that
does not parse as a uuid gives `Some(Invalid)`; a uuid is POPPED from the
cache (at most once), giving the stored payload or `None` if absent/evicted. -/
def extract_params (cache : LruCache Nat CallbackParams) (data : Option String) :
    Option CallbackParams × LruCache Nat CallbackParams :=
  match data with
  | none => (none, cache)
  | some d =>
    match Uuid.parse_str d with
    | some uuid => cache.pop uuid
    | none => (some .Invalid, cache)

end Main


/-! Section: `models.rs`: youtrack data model -/

/-- Source `models.rs`: `struct FieldType { id }`. -/
structure FieldType where
  id : String
  deriving DecidableEq

/-- Source `models.rs`: `struct CustomField { id, name, field_type }`
(serde rename: `fieldType`). -/
structure CustomField where
  id : String
  name : String
  field_type : FieldType
  deriving DecidableEq

/-- Source `models.rs`: `struct BundleElement { id, name }`. -/
structure BundleElement where
  id : String
  name : String
  deriving DecidableEq

/-- Source `models.rs`: `struct Bundle { id, values: Option<BundleElements> }`. -/
structure Bundle where
  id : String
  values : Option (List BundleElement)
  deriving DecidableEq

/-- Source `models.rs`: `Bundle::has_value(name)`. -/
def Bundle.has_value (b : Bundle) (name : String) : Bool :=
  match b.values with
  | some values => values.any (fun x => x.name == name)
  | none => false

/-- Source `models.rs`: `struct ProjectCustomField` (serde rename `canBeEmpty`;
the source spells the field `can_be_emtpy`). -/
structure ProjectCustomField where
  id : String
  field : CustomField
  ordinal : Int
  can_be_emtpy : Bool
  bundle : Option Bundle
  deriving DecidableEq

/-- Source `models.rs`: `struct Project { id, name, short_name, fields }`
(serde rename `shortName`). -/
structure Project where
  id : String
  name : Option String
  short_name : Option String
  fields : List ProjectCustomField
  deriving DecidableEq

/-- Source `models.rs`: `Project::get_project_custom_field(field_name)`. -/
def Project.get_project_custom_field (p : Project) (field_name : String) :
    Option ProjectCustomField :=
  p.fields.find? (fun x => x.field.name == field_name)

/-! Note: serde deserialization of the model structs (needed because a stored
`UserState` embeds a `Project`).  serde derive semantics: non-`Option` fields
are required, `Option` fields may be missing or `null`, unknown fields are
ignored. -/

/-- Required struct field. -/
def jsonReqField (j : Json) (k : String) (f : Json → Option α) : Option α :=
  j.getField? k >>= f

/-- Optional (`Option<T>`) struct field: missing or `null` is `None`. -/
def jsonOptField (j : Json) (k : String) (f : Json → Option α) : Option (Option α) :=
  match j.getField? k with
  | none => some none
  | some .null => some none
  | some v => (f v).map some

/-- Source `Vec<T>` from a JSON array. -/
def jsonListOf (f : Json → Option α) : Json → Option (List α)
  | .arr xs => xs.mapM f
  | _ => none

def FieldType.fromJson (j : Json) : Option FieldType := do
  let i ← jsonReqField j "id" jsonAsStr
  pure ⟨i⟩

def CustomField.fromJson (j : Json) : Option CustomField := do
  let i ← jsonReqField j "id" jsonAsStr
  let n ← jsonReqField j "name" jsonAsStr
  let ft ← jsonReqField j "fieldType" FieldType.fromJson
  pure ⟨i, n, ft⟩

def BundleElement.fromJson (j : Json) : Option BundleElement := do
  let i ← jsonReqField j "id" jsonAsStr
  let n ← jsonReqField j "name" jsonAsStr
  pure ⟨i, n⟩

def Bundle.fromJson (j : Json) : Option Bundle := do
  let i ← jsonReqField j "id" jsonAsStr
  let vs ← jsonOptField j "values" (jsonListOf BundleElement.fromJson)
  pure ⟨i, vs⟩

def ProjectCustomField.fromJson (j : Json) : Option ProjectCustomField := do
  let i ← jsonReqField j "id" jsonAsStr
  let f ← jsonReqField j "field" CustomField.fromJson
  let o ← jsonReqField j "ordinal" jsonAsI32
  let cbe ← jsonReqField j "canBeEmpty" jsonAsBool
  let b ← jsonOptField j "bundle" Bundle.fromJson
  pure ⟨i, f, o, cbe, b⟩

def Project.fromJson (j : Json) : Option Project := do
  let i ← jsonReqField j "id" jsonAsStr
  let n ← jsonOptField j "name" jsonAsStr
  let sn ← jsonOptField j "shortName" jsonAsStr
  let fs ← jsonReqField j "fields" (jsonListOf ProjectCustomField.fromJson)
  pure ⟨i, n, sn, fs⟩

/-! Section: `states.rs`: the session state machine -/

/-- Source `states.rs`: `struct IssueStream(pub String, pub String)` — positional
fields (custom-field id, value) modelled as `p0`, `p1`. -/
structure IssueStream where
  p0 : String
  p1 : String
  deriving DecidableEq

/-- Source `states.rs`: `struct IssueType(pub String, pub String)`. -/
structure IssueType where
  p0 : String
  p1 : String
  deriving DecidableEq

/-- Source `states.rs`: the `machine!`-generated `enum UserState` (one variant per
state struct plus the generated `Error` unit variant). -/
inductive UserState where
  | Idle
  | InBacklog (top skip : Int)
  | NewIssue
  | NewIssueSummary (summary : String)
  | NewIssueSummaryProject (summary : String) (project : Project)
  | NewIssueSummaryProjectStream (summary : String) (project : Project) (stream : IssueStream)
  | NewIssueSummaryProjectStreamType (summary : String) (project : Project)
      (stream : IssueStream) (issue_type : IssueType)
  | NewIssueSummaryProjectStreamTypeDesc (summary : String) (project : Project)
      (stream : IssueStream) (issue_type : IssueType) (desc : String)
  | Error
  deriving DecidableEq

/-- The `machine!`-generated constructor `UserState::idle()`. -/
def UserState.idle : UserState := .Idle

/-- The `transitions!`-generated `enum UserStateMessages` (one variant per
message struct declared in `states.rs`). -/
inductive UserStateMessages where
  | StartBacklog (p : BacklogParams)
  | BacklogPage (p : BacklogParams)
  | StopBacklog
  | Save
  | Cancel
  | Noop
  | CreateNewIssue
  | IssueSummary (summary : String)
  | IssueSummaryProject (summary : String) (project : Project)
  | IssueSummaryProjectStream (summary : String) (project : Project) (stream : IssueStream)
  | IssueSummaryProjectStreamType (summary : String) (project : Project)
      (stream : IssueStream) (issue_type : IssueType)
  | IssueSummaryProjectStreamTypeDesc (summary : String) (project : Project)
      (stream : IssueStream) (issue_type : IssueType) (desc : String)
  deriving DecidableEq

/-- The `transitions!`-generated `UserState::execute`: each listed
`(state, message)` pair maps through its `on_*` handler (`states.rs`
lines 108-132 plus the handler impls); every unlisted pair yields
`UserState::Error`. -/
def UserState.execute : UserState → UserStateMessages → UserState
  | .Idle, .StartBacklog p => .InBacklog p.top p.skip
  | .InBacklog _ _, .StopBacklog => .Idle
  | .InBacklog _ _, .BacklogPage p => .InBacklog p.top p.skip
  | .Idle, .Noop => .Idle
  | .Idle, .CreateNewIssue => .NewIssue
  | .NewIssue, .IssueSummary s => .NewIssueSummary s
  | .NewIssue, .Cancel => .Idle
  | .NewIssue, .Noop => .NewIssue
  | .NewIssueSummary _, .IssueSummaryProject s p => .NewIssueSummaryProject s p
  | .NewIssueSummary _, .Cancel => .Idle
  | .NewIssueSummary s, .Noop => .NewIssueSummary s
  | .NewIssueSummaryProject _ _, .IssueSummaryProjectStream s p st =>
    .NewIssueSummaryProjectStream s p st
  | .NewIssueSummaryProject _ _, .Cancel => .Idle
  | .NewIssueSummaryProject s p, .Noop => .NewIssueSummaryProject s p
  | .NewIssueSummaryProjectStream _ _ _, .IssueSummaryProjectStreamType s p st ty =>
    .NewIssueSummaryProjectStreamType s p st ty
  | .NewIssueSummaryProjectStream _ _ _, .Cancel => .Idle
  | .NewIssueSummaryProjectStream s p st, .Noop => .NewIssueSummaryProjectStream s p st
  | .NewIssueSummaryProjectStreamType _ _ _ _, .IssueSummaryProjectStreamTypeDesc s p st ty d =>
    .NewIssueSummaryProjectStreamTypeDesc s p st ty d
  | .NewIssueSummaryProjectStreamType _ _ _ _, .Cancel => .Idle
  | .NewIssueSummaryProjectStreamType s p st ty, .Noop =>
    .NewIssueSummaryProjectStreamType s p st ty
  | .NewIssueSummaryProjectStreamTypeDesc _ _ _ _ _, .Save => .Idle
  | .NewIssueSummaryProjectStreamTypeDesc _ _ _ _ _, .Cancel => .Idle
  | .NewIssueSummaryProjectStreamTypeDesc s p st ty d, .Noop =>
    .NewIssueSummaryProjectStreamTypeDesc s p st ty d
  | _, _ => .Error

/-- serde deserialization of `IssueStream` (a tuple struct: a two-element
JSON array). -/
def IssueStream.fromJson : Json → Option IssueStream
  | .arr [a, b] => do
    let x ← jsonAsStr a
    let y ← jsonAsStr b
    pure ⟨x, y⟩
  | _ => none

/-- serde deserialization of `IssueType` (a tuple struct). -/
def IssueType.fromJson : Json → Option IssueType
  | .arr [a, b] => do
    let x ← jsonAsStr a
    let y ← jsonAsStr b
    pure ⟨x, y⟩
  | _ => none

/-- serde deserialization of `UserState` (externally tagged enum derived on
the `machine!` wrapper: a one-entry object keyed by the variant name — unit
state structs serialize as `null` — or a bare string for the `Error` unit
variant). -/
def UserState.fromJson (j : Json) : Option UserState :=
  match j with
  | .str s => if s = "Error" then some .Error else none
  | .obj [(k, v)] =>
    if k = "Error" then
      match v with
      | .null => some .Error
      | _ => none
    else if k = "Idle" then
      match v with
      | .null => some .Idle
      | _ => none
    else if k = "InBacklog" then do
      let top ← jsonReqField v "top" jsonAsI32
      let skip ← jsonReqField v "skip" jsonAsI32
      pure (.InBacklog top skip)
    else if k = "NewIssue" then
      match v with
      | .null => some .NewIssue
      | _ => none
    else if k = "NewIssueSummary" then do
      let s ← jsonReqField v "summary" jsonAsStr
      pure (.NewIssueSummary s)
    else if k = "NewIssueSummaryProject" then do
      let s ← jsonReqField v "summary" jsonAsStr
      let p ← jsonReqField v "project" Project.fromJson
      pure (.NewIssueSummaryProject s p)
    else if k = "NewIssueSummaryProjectStream" then do
      let s ← jsonReqField v "summary" jsonAsStr
      let p ← jsonReqField v "project" Project.fromJson
      let st ← jsonReqField v "stream" IssueStream.fromJson
      pure (.NewIssueSummaryProjectStream s p st)
    else if k = "NewIssueSummaryProjectStreamType" then do
      let s ← jsonReqField v "summary" jsonAsStr
      let p ← jsonReqField v "project" Project.fromJson
      let st ← jsonReqField v "stream" IssueStream.fromJson
      let ty ← jsonReqField v "issue_type" IssueType.fromJson
      pure (.NewIssueSummaryProjectStreamType s p st ty)
    else if k = "NewIssueSummaryProjectStreamTypeDesc" then do
      let s ← jsonReqField v "summary" jsonAsStr
      let p ← jsonReqField v "project" Project.fromJson
      let st ← jsonReqField v "stream" IssueStream.fromJson
      let ty ← jsonReqField v "issue_type" IssueType.fromJson
      let d ← jsonReqField v "desc" jsonAsStr
      pure (.NewIssueSummaryProjectStreamTypeDesc s p st ty d)
    else none
  | _ => none

/-! Section: The redis-backed Session Store (`states.rs` + `bot.rs`) -/

/-- The redis reply values the `FromRedisValue` impl distinguishes. -/
inductive RedisValue where
  | nil
  | status (s : String)
  | data (s : String)
  | int (n : Int)
  | okay
  deriving DecidableEq

/-- The redis error kind raised by the `FromRedisValue` impl
(`(redis::ErrorKind::TypeError, "Unable to parse value")`). -/
inductive RedisError where
  | typeError
  deriving DecidableEq

/-- Source `serde_json::from_str::<UserState>` / `from_slice`. -/
def userStateFromString (s : String) : Option UserState :=
  (Json.parse s).bind UserState.fromJson

/-- Source `states.rs`: `impl FromRedisValue for UserState`: JSON-parse `Status` or
`Data` replies; any other reply kind, or a parse failure, is a TypeError. -/
def UserState.from_redis_value (v : RedisValue) : Except RedisError UserState :=
  match v with
  | .status s =>
    match userStateFromString s with
    | some st => .ok st
    | none => .error .typeError
  | .data s =>
    match userStateFromString s with
    | some st => .ok st
    | none => .error .typeError
  | _ => .error .typeError

/-- The redis crate blanket impl `FromRedisValue for Option<T>`: `Nil` is
`None`, any other reply deserializes as `T`. -/
def optionUserStateFromRedisValue (v : RedisValue) : Except RedisError (Option UserState) :=
  match v with
  | .nil => .ok none
  | v => (UserState.from_redis_value v).map some

/-- Source `bot.rs`: `Bot::get_state(uid)`: read key `"state:{uid}"`; an absent
record gives `UserState::idle()`; a record that fails to deserialize makes
`con.get(key)?` PROPAGATE the TypeError.  The redis connection is modelled
as a total key-to-reply map. -/
def get_state (store : String → RedisValue) (uid : Int) : Except RedisError UserState :=
  match optionUserStateFromRedisValue (store ("state:" ++ toString uid)) with
  | .error e => .error e
  | .ok (some state) => .ok state
  | .ok none => .ok UserState.idle


/-! Section: `bot.rs`: the Action Executor effects and the dispatch loop

The bot performs its telegram/youtrack effects inline while handling a
command.  The embedding makes the handlers pure: each outbound effect is
recorded as an `Intent`, and every collaborator RESULT the handler consumes
(token lookup, issue fetch, vote, project list, bundles, issue creation) is
an input, bundled in `Collab`.  Telegram sends themselves are modelled as
succeeding — no claim concerns transport failures.  Intents performed on a
path that later fails with `?`/`bail!` are not tracked. -/

/-- Source `models.rs`: `struct IssueVoters { has_vote }` (serde alias `hasVote`). -/
structure IssueVoters where
  has_vote : Bool
  deriving DecidableEq

/-- Source `models.rs`: `struct Issue { id_readable, summary, votes, voters }`. -/
structure Issue where
  id_readable : String
  summary : String
  votes : Int
  voters : IssueVoters
  deriving DecidableEq

/-- One side effect performed through the telegram API, one constructor per
`api.send`/`api.spawn` call site in `bot.rs`. -/
inductive Intent where
  | clearInlineKeyboard
  | renderBacklogEdit (issues : List Issue) (params : BacklogParams)
  | renderBacklogReply (issues : List Issue) (params : BacklogParams)
  | textReply (text : String)
  | sendStartGreeting
  | sendLoginLink
  | promptIssueSummary
  | promptProject (projects : List Project)
  | promptStream (values : List BundleElement)
  | promptIssueType (values : List BundleElement)
  | promptDescription
  | draftPreview (desc : String)
  | sendText (text : String)
  | issueCreated (id : String)
  deriving DecidableEq

/-- The collaborator results consumed while handling one command. -/
structure Collab where
  hasToken : Bool
  fetched : Except String (List Issue)
  voteOk : Except String Unit
  projects : Except String (List Project)
  streamBundle : Except String Bundle
  typeBundle : Except String Bundle
  createIssue : Except String String

/-- Result of one per-state `handle_command_*` method: the effects performed
and the state-machine message returned; `fails` models an error propagated
with `?`/`bail!`, `panics` models a Rust panic (an `unwrap` of a missing
value). -/
inductive HResult where
  | panics
  | fails (reason : String)
  | ok (intents : List Intent) (msg : UserStateMessages)
  deriving DecidableEq

/-- Source `bot.rs`: `Bot::fetch_issues`.  Without a youtrack token, or when the
fetch fails, it reports to the user and returns `Noop`; on success it renders
the page (edit for bot-authored messages, reply otherwise) and returns
`StartBacklog(params)` when `params.skip == 0`, else `BacklogPage(params)`. -/
def fetch_issues (c : Collab) (msg : Message) (params : BacklogParams) :
    List Intent × UserStateMessages :=
  if c.hasToken then
    match c.fetched with
    | .ok issues =>
      let render :=
        if msg.sender.is_bot then Intent.renderBacklogEdit issues params
        else Intent.renderBacklogReply issues params
      ([render], if params.skip = 0 then .StartBacklog params else .BacklogPage params)
    | .error e => ([Intent.textReply ("Error occured: " ++ e)], .Noop)
  else
    ([Intent.textReply "No valid access token founds, use /login command to login in youtrack"],
      .Noop)

/-- Source `bot.rs`: `Bot::handle_command_idle`. -/
def handle_command_idle (cmd : BotCommand) (c : Collab) : HResult :=
  match cmd with
  | .Backlog msg p =>
    let (is, m) := fetch_issues c msg p
    .ok is m
  | .Start _ => .ok [Intent.sendStartGreeting] .Noop
  | .Login _ => .ok [Intent.sendLoginLink] .Noop
  | .NewIssue _ => .ok [Intent.promptIssueSummary] .CreateNewIssue
  | _ => .ok [] .Noop

/-- Source `bot.rs`: `Bot::handle_command_in_backlog`.  Every callback arm unwraps
`cb.message` (a panic when absent); the catch-all arm returns `Noop` with no
effects. -/
def handle_command_in_backlog (top skip : Int) (cmd : BotCommand) (c : Collab) : HResult :=
  match cmd with
  | .BacklogStop cb =>
    match cb.message with
    | none => .panics
    | some _ => .ok [Intent.clearInlineKeyboard] .StopBacklog
  | .BacklogNext cb p =>
    match cb.message with
    | none => .panics
    | some msg =>
      let (is, m) := fetch_issues c msg p
      .ok is m
  | .BacklogPrev cb p =>
    match cb.message with
    | none => .panics
    | some msg =>
      let (is, m) := fetch_issues c msg p
      .ok is m
  | .BacklogVoteForIssue cb _ =>
    match cb.message with
    | none => .panics
    | some msg =>
      if c.hasToken then
        match c.voteOk with
        | .ok _ =>
          let (is, m) := fetch_issues c msg (BacklogParams.new_with_skip top skip)
          .ok is m
        | .error e => .ok [Intent.textReply ("Error occured: " ++ e)] .Noop
      else
        .ok [Intent.clearInlineKeyboard,
          Intent.textReply "No valid access token founds, use /login command to login in youtrack"]
          .StopBacklog
  | _ => .ok [] .Noop

/-- Sorting key order used by `Project::list` (`sort_by_cached_key` on
`Option<String>`: `None` first, then lexicographic). -/
def optNameLe : Option String → Option String → Bool
  | none, _ => true
  | some _, none => false
  | some a, some b => a ≤ b

/-- Insertion into a name-sorted project list. -/
def insertByName (p : Project) : List Project → List Project
  | [] => [p]
  | q :: qs => if optNameLe p.name q.name then p :: q :: qs else q :: insertByName p qs

/-- The name-sort `Project::list` applies before returning. -/
def sortProjectsByName : List Project → List Project
  | [] => []
  | p :: ps => insertByName p (sortProjectsByName ps)

/-- Source `bot.rs`: `Bot::get_project(name)`: binary-search the name-sorted project
list for an exact name match; a miss bails with "No such project". -/
def get_project (c : Collab) (name : String) : Except String Project :=
  match c.projects with
  | .error e => .error e
  | .ok ps =>
    match (sortProjectsByName ps).find? (fun p => p.name == some name) with
    | some p => .ok p
    | none => .error "No such project"

/-- Source `bot.rs`: `Bot::handle_command_new_issue`.  On text input the project
list is fetched with `?` (a failure aborts the handler); the reply keyboard
unwraps every project name (a panic when one is `None`). -/
def handle_command_new_issue (cmd : BotCommand) (c : Collab) : HResult :=
  match cmd with
  | .Text _ =>
    match cmd.get_message_text with
    | some summary =>
      match c.projects with
      | .error e => .fails e
      | .ok projects =>
        let sorted := sortProjectsByName projects
        if sorted.all (fun p => p.name.isSome) then
          .ok [Intent.promptProject sorted] (.IssueSummary summary)
        else .panics
    | none => .ok [] .Noop
  | .Cancel _ => .ok [Intent.sendText "cancel"] .Cancel
  | _ => .ok [] .Noop

/-- Source `bot.rs`: `Bot::handle_command_new_issue_summary`.  A `get_project` miss
or failure is swallowed into `Noop`; the stream bundle is fetched with `?`;
`stream.values.unwrap()` panics when the bundle has no values. -/
def handle_command_new_issue_summary (summary : String) (cmd : BotCommand) (c : Collab) :
    HResult :=
  match cmd with
  | .Text _ =>
    match cmd.get_message_text with
    | some projectName =>
      match get_project c projectName with
      | .ok project =>
        match c.streamBundle with
        | .error e => .fails e
        | .ok stream =>
          match stream.values with
          | none => .panics
          | some values => .ok [Intent.promptStream values] (.IssueSummaryProject summary project)
      | .error _ => .ok [] .Noop
    | none => .ok [] .Noop
  | .Cancel _ => .ok [Intent.sendText "cancel"] .Cancel
  | _ => .ok [] .Noop

/-- Source `bot.rs`: `Bot::handle_command_new_issue_summary_project`.  Unknown
stream values are a silent `Noop`; the "Stream" project custom field is
unwrapped (a panic when absent). -/
def handle_command_new_issue_summary_project (summary : String) (project : Project)
    (cmd : BotCommand) (c : Collab) : HResult :=
  match cmd with
  | .Text _ =>
    match cmd.get_message_text with
    | some stream =>
      match c.streamBundle with
      | .error e => .fails e
      | .ok stream_bundle =>
        if stream_bundle.has_value stream then
          match c.typeBundle with
          | .error e => .fails e
          | .ok type_bundle =>
            match type_bundle.values with
            | none => .panics
            | some values =>
              match project.get_project_custom_field "Stream" with
              | none => .panics
              | some field =>
                .ok [Intent.promptIssueType values]
                  (.IssueSummaryProjectStream summary project ⟨field.id, stream⟩)
        else .ok [] .Noop
    | none => .ok [] .Noop
  | .Cancel _ => .ok [Intent.sendText "cancel"] .Cancel
  | _ => .ok [] .Noop

/-- Source `bot.rs`: `Bot::handle_command_new_issue_summary_project_stream`. -/
def handle_command_new_issue_summary_project_stream (summary : String) (project : Project)
    (stream : IssueStream) (cmd : BotCommand) (c : Collab) : HResult :=
  match cmd with
  | .Text _ =>
    match cmd.get_message_text with
    | some issue_type =>
      match c.typeBundle with
      | .error e => .fails e
      | .ok type_bundle =>
        if type_bundle.has_value issue_type then
          match project.get_project_custom_field "Type" with
          | none => .panics
          | some field =>
            .ok [Intent.promptDescription]
              (.IssueSummaryProjectStreamType summary project stream ⟨field.id, issue_type⟩)
        else .ok [] .Noop
    | none => .ok [] .Noop
  | .Cancel _ => .ok [Intent.sendText "cancel"] .Cancel
  | _ => .ok [] .Noop

/-- Source `bot.rs`: `Bot::handle_command_new_issue_summary_project_stream_type`. -/
def handle_command_new_issue_summary_project_stream_type (summary : String) (project : Project)
    (stream : IssueStream) (issue_type : IssueType) (cmd : BotCommand) (_c : Collab) : HResult :=
  match cmd with
  | .Text _ =>
    match cmd.get_message_text with
    | some desc =>
      .ok [Intent.draftPreview desc]
        (.IssueSummaryProjectStreamTypeDesc summary project stream issue_type desc)
    | none => .ok [] .Noop
  | .Cancel _ => .ok [Intent.sendText "cancel"] .Cancel
  | _ => .ok [] .Noop

/-- Source `bot.rs`: `Bot::handle_command_new_issue_summary_project_stream_type_desc`.
`Save` builds the `IssueDraft` from the accumulated state fields and posts it
(the outcome arrives in `Collab.createIssue`); a failed POST bails. -/
def handle_command_new_issue_summary_project_stream_type_desc (_summary : String)
    (_project : Project) (_stream : IssueStream) (_issue_type : IssueType) (_desc : String)
    (cmd : BotCommand) (c : Collab) : HResult :=
  match cmd with
  | .Save _ =>
    match c.createIssue with
    | .ok issue_id => .ok [Intent.sendText "save", Intent.issueCreated issue_id] .Save
    | .error e => .fails e
  | .Cancel _ => .ok [Intent.sendText "cancel"] .Cancel
  | _ => .ok [] .Noop

/-- Source `bot.rs`: `Bot::handle_command_error` (the `Error`-state arm of
`match_user_state!`): always `Noop` with no effects. -/
def handle_command_error (_cmd : BotCommand) (_c : Collab) : HResult :=
  .ok [] .Noop

/-- The `match_user_state!` dispatch inside `Bot::handle_command`. -/
def stateHandler (state : UserState) (cmd : BotCommand) (c : Collab) : HResult :=
  match state with
  | .Idle => handle_command_idle cmd c
  | .InBacklog t s => handle_command_in_backlog t s cmd c
  | .NewIssue => handle_command_new_issue cmd c
  | .NewIssueSummary s => handle_command_new_issue_summary s cmd c
  | .NewIssueSummaryProject s p => handle_command_new_issue_summary_project s p cmd c
  | .NewIssueSummaryProjectStream s p st =>
    handle_command_new_issue_summary_project_stream s p st cmd c
  | .NewIssueSummaryProjectStreamType s p st ty =>
    handle_command_new_issue_summary_project_stream_type s p st ty cmd c
  | .NewIssueSummaryProjectStreamTypeDesc s p st ty d =>
    handle_command_new_issue_summary_project_stream_type_desc s p st ty d cmd c
  | .Error => handle_command_error cmd c

/-- Outcome of `Bot::handle_command` for one update. -/
inductive CmdOutcome where
  | panics
  | fails (reason : String)
  | ok (intents : List Intent) (newState : UserState)
  deriving DecidableEq

/-- Source `bot.rs`: `Bot::handle_command`: run the per-state handler, feed the
returned message to `UserState::execute`, and `bail!("Invalid transition")`
when the machine answers with the `Error` sentinel. -/
def handle_command (state : UserState) (cmd : BotCommand) (c : Collab) : CmdOutcome :=
  match stateHandler state cmd c with
  | .panics => .panics
  | .fails r => .fails r
  | .ok intents m =>
    let new_state := state.execute m
    if new_state = .Error then .fails "Invalid transition"
    else .ok intents new_state

/-- Source `bot.rs`: the store effect of `Bot::dispatch_update`: on `Ok(new_state)`
the new state is written (`con.set`); on any failure the warning is logged,
the write is skipped and the user's prior record stays. -/
def dispatch_next (state : UserState) (cmd : BotCommand) (c : Collab) : UserState :=
  match handle_command state cmd c with
  | .ok _ ns => ns
  | _ => state

/-! Section: Concrete fixtures used by witnesses and counterexamples -/

/-- A plain (human) telegram user. -/
def tgUser1 : TgUser := ⟨42, "alice", false⟩

/-- A text message from that user. -/
def msgStart : Message := ⟨tgUser1, 7, .text "/start"⟩

/-- The bot-authored page message callback buttons hang on. -/
def botMsg : Message := ⟨⟨99, "bot", true⟩, 7, .text "backlog page"⟩

/-- A callback update whose payload is not valid JSON (and not a uuid). -/
def cbGarbage : CallbackQuery := ⟨tgUser1, some botMsg, some "garbage"⟩

/-- The prev-to-page-0 callback (its payload already decoded by the
normalizer; the string itself is no longer inspected at the engine layer). -/
def cbPrevPage0 : CallbackQuery := ⟨tgUser1, some botMsg, some "payload"⟩

/-- One youtrack issue. -/
def issue1 : Issue := ⟨"KI-1", "an issue", 0, ⟨false⟩⟩

/-- Collaborator results where everything succeeds. -/
def collabOk : Collab :=
  ⟨true, .ok [issue1], .ok (), .ok [], .ok ⟨"b1", some []⟩, .ok ⟨"b2", some []⟩, .ok "KI-2"⟩

/-- An empty opaque-handle cache with the `main.rs` capacity of 100. -/
def lruEmpty : LruCache Nat Main.CallbackParams := ⟨100, []⟩

/-- A redis store holding an unparsable record under every key. -/
def corruptStore : String → RedisValue := fun _ => .data "garbage"

/-- A redis store with no record under any key. -/
def emptyStore : String → RedisValue := fun _ => .nil

/-- A `VoteForIssue` payload with a 40-byte issue id: its serialized form is
67 bytes, beyond the 64-byte telegram callback-data ceiling. -/
def bigVote : CallbackParams :=
  .VoteForIssue ⟨"AAAAAAAAAAAAAAAAAAAAAAAAAAAAAAAAAAAAAAAA", true⟩

/-- The four command variants the `InBacklog` handler arm treats specially;
everything else falls into its catch-all arm. -/
def BotCommand.isBacklogAction : BotCommand → Bool
  | .BacklogStop _ => true
  | .BacklogNext _ _ => true
  | .BacklogPrev _ _ => true
  | .BacklogVoteForIssue _ _ => true
  | _ => false

/-- The transition relation written down by the `transitions!` list in
`states.rs` (one constructor per listed `(state, message)` pair, target as
produced by the corresponding `on_*` handler) — stated independently of
`UserState.execute`. -/
inductive IsRule : UserState → UserStateMessages → UserState → Prop where
  | idle_start_backlog (p : BacklogParams) :
    IsRule .Idle (.StartBacklog p) (.InBacklog p.top p.skip)
  | in_backlog_stop (t s : Int) : IsRule (.InBacklog t s) .StopBacklog .Idle
  | in_backlog_page (t s : Int) (p : BacklogParams) :
    IsRule (.InBacklog t s) (.BacklogPage p) (.InBacklog p.top p.skip)
  | idle_noop : IsRule .Idle .Noop .Idle
  | idle_create_new_issue : IsRule .Idle .CreateNewIssue .NewIssue
  | new_issue_summary (s : String) : IsRule .NewIssue (.IssueSummary s) (.NewIssueSummary s)
  | new_issue_cancel : IsRule .NewIssue .Cancel .Idle
  | new_issue_noop : IsRule .NewIssue .Noop .NewIssue
  | nis_project (s0 s : String) (p : Project) :
    IsRule (.NewIssueSummary s0) (.IssueSummaryProject s p) (.NewIssueSummaryProject s p)
  | nis_cancel (s : String) : IsRule (.NewIssueSummary s) .Cancel .Idle
  | nis_noop (s : String) : IsRule (.NewIssueSummary s) .Noop (.NewIssueSummary s)
  | nisp_stream (s0 : String) (q : Project) (s : String) (p : Project) (st : IssueStream) :
    IsRule (.NewIssueSummaryProject s0 q) (.IssueSummaryProjectStream s p st)
      (.NewIssueSummaryProjectStream s p st)
  | nisp_cancel (s : String) (p : Project) : IsRule (.NewIssueSummaryProject s p) .Cancel .Idle
  | nisp_noop (s : String) (p : Project) :
    IsRule (.NewIssueSummaryProject s p) .Noop (.NewIssueSummaryProject s p)
  | nisps_type (s0 : String) (q : Project) (st0 : IssueStream) (s : String) (p : Project)
      (st : IssueStream) (ty : IssueType) :
    IsRule (.NewIssueSummaryProjectStream s0 q st0) (.IssueSummaryProjectStreamType s p st ty)
      (.NewIssueSummaryProjectStreamType s p st ty)
  | nisps_cancel (s : String) (p : Project) (st : IssueStream) :
    IsRule (.NewIssueSummaryProjectStream s p st) .Cancel .Idle
  | nisps_noop (s : String) (p : Project) (st : IssueStream) :
    IsRule (.NewIssueSummaryProjectStream s p st) .Noop (.NewIssueSummaryProjectStream s p st)
  | nispst_desc (s0 : String) (q : Project) (st0 : IssueStream) (ty0 : IssueType) (s : String)
      (p : Project) (st : IssueStream) (ty : IssueType) (d : String) :
    IsRule (.NewIssueSummaryProjectStreamType s0 q st0 ty0)
      (.IssueSummaryProjectStreamTypeDesc s p st ty d)
      (.NewIssueSummaryProjectStreamTypeDesc s p st ty d)
  | nispst_cancel (s : String) (p : Project) (st : IssueStream) (ty : IssueType) :
    IsRule (.NewIssueSummaryProjectStreamType s p st ty) .Cancel .Idle
  | nispst_noop (s : String) (p : Project) (st : IssueStream) (ty : IssueType) :
    IsRule (.NewIssueSummaryProjectStreamType s p st ty) .Noop
      (.NewIssueSummaryProjectStreamType s p st ty)
  | nispstd_save (s : String) (p : Project) (st : IssueStream) (ty : IssueType) (d : String) :
    IsRule (.NewIssueSummaryProjectStreamTypeDesc s p st ty d) .Save .Idle
  | nispstd_cancel (s : String) (p : Project) (st : IssueStream) (ty : IssueType) (d : String) :
    IsRule (.NewIssueSummaryProjectStreamTypeDesc s p st ty d) .Cancel .Idle
  | nispstd_noop (s : String) (p : Project) (st : IssueStream) (ty : IssueType) (d : String) :
    IsRule (.NewIssueSummaryProjectStreamTypeDesc s p st ty d) .Noop
      (.NewIssueSummaryProjectStreamTypeDesc s p st ty d)

/-! Section: theorems -/

theorem wrap32_id (x : Int) (h : inRange32 x) : wrap32 x = x := by
  obtain ⟨h1, h2⟩ := h
  unfold wrap32
  omega

theorem wrap32_add_left (a b : Int) : wrap32 (wrap32 a + b) = wrap32 (a + b) := by
  unfold wrap32
  omega

/-- C7 (amended): the `BacklogParams` operations preserve the invariant
(top > 0, skip a non-negative multiple of top) rather than establishing it
unconditionally: `new` needs a positive argument, `new_with_skip` needs
arguments already satisfying it, `next` needs the sum to stay in i32 range,
and `prev` preserves it outright (on in-range fields). -/
theorem backlogParams_ops_preserve_invariant :
    (∀ t : Int, 0 < t → BPinv (BacklogParams.new t)) ∧
    (∀ t s : Int, BPinv ⟨t, s⟩ → BPinv (BacklogParams.new_with_skip t s)) ∧
    (∀ p : BacklogParams, BPinv p → inRange32 (p.skip + p.top) → BPinv p.next) ∧
    (∀ p q : BacklogParams, BPinv p → inRange32 p.top → inRange32 p.skip →
      p.prev = some q → BPinv q) := by
  refine ⟨?_, ?_, ?_, ?_⟩
  · intro t ht
    exact ⟨ht, le_refl 0, Int.zero_emod t⟩
  · intro t s h
    exact h
  · intro p hp hr
    obtain ⟨h1, h2, h3⟩ := hp
    refine ⟨h1, ?_, ?_⟩
    · show 0 ≤ p.next.skip
      simp only [BacklogParams.next]
      rw [wrap32_id _ hr]
      omega
    · show p.next.skip % p.next.top = 0
      simp only [BacklogParams.next]
      rw [wrap32_id _ hr]
      have hd : p.top ∣ p.skip := Int.dvd_of_emod_eq_zero h3
      exact Int.emod_eq_zero_of_dvd (dvd_add hd (dvd_refl p.top))
  · intro p q hp hrt hrs hprev
    obtain ⟨h1, h2, h3⟩ := hp
    have hr : inRange32 (p.skip - p.top) := by
      obtain ⟨a1, a2⟩ := hrt
      obtain ⟨b1, b2⟩ := hrs
      constructor <;> omega
    simp only [BacklogParams.prev] at hprev
    rw [wrap32_id _ hr] at hprev
    by_cases hge : 0 ≤ p.skip - p.top
    · rw [if_pos hge] at hprev
      cases hprev
      have hd : p.top ∣ p.skip := Int.dvd_of_emod_eq_zero h3
      exact ⟨h1, hge, Int.emod_eq_zero_of_dvd (dvd_sub hd (dvd_refl p.top))⟩
    · rw [if_neg hge] at hprev
      cases hprev

/-- C7 counterexample: `new_with_skip(5, 3)` is produced by one of the
type's operations, yet its skip (3) is not a multiple of its top (5) —
the operations do not unconditionally guarantee the invariant. -/
theorem backlogParams_new_with_skip_breaks_invariant :
    ¬ BPinv (BacklogParams.new_with_skip 5 3) := by decide

/-- C7 witness: the preservation theorem applied at concrete params. -/
theorem backlogParams_ops_preserve_invariant_witness :
    BPinv (BacklogParams.new 5) ∧ BPinv (BacklogParams.next ⟨5, 5⟩) :=
  ⟨backlogParams_ops_preserve_invariant.1 5 (by decide),
   backlogParams_ops_preserve_invariant.2.2.1 ⟨5, 5⟩ (by decide) (by decide)⟩

/-- C10: `params.next().prev() == Some(params)` whenever `params.skip >= 0`
(i32 fields; with wrap-around semantics this holds on the whole i32 range). -/
theorem backlogParams_next_prev (p : BacklogParams) (ht : inRange32 p.top)
    (hs : inRange32 p.skip) (h : 0 ≤ p.skip) : p.next.prev = some p := by
  obtain ⟨t, s⟩ := p
  simp only [BacklogParams.next, BacklogParams.prev]
  have key : wrap32 (wrap32 (s + t) - t) = s := by
    have h1 : wrap32 (s + t) - t = wrap32 (s + t) + -t := by ring
    rw [h1, wrap32_add_left]
    have h2 : s + t + -t = s := by ring
    rw [h2]
    exact wrap32_id s hs
  rw [key, if_pos h]

/-- C10 witness: `{top:5, skip:10}.next().prev()` is `Some {5, 10}`. -/
theorem backlogParams_next_prev_witness :
    (BacklogParams.mk 5 10).next.prev = some ⟨5, 10⟩ :=
  backlogParams_next_prev ⟨5, 10⟩ (by decide) (by decide) (by decide)

/-- C3 counterexample: a payload whose serialized form is 67 bytes makes the
encode step PANIC (modelled: no button is produced) — it does not return an
explicit SizeExceeded failure value. -/
theorem encode_big_payload_panics :
    64 < ((CallbackParams.toJson bigVote).render).utf8ByteSize ∧
    inlineKeyboardButtonOfCallbackParams bigVote = none := by
  exact ⟨by decide, by decide⟩

/-- C3 (amended): the self-describing encode step panics — modelled as
producing no value — precisely when the serialized payload exceeds 64 bytes;
within the ceiling it returns the button carrying the serialized payload. -/
theorem encode_size_ceiling (p : CallbackParams) :
    (64 < ((CallbackParams.toJson p).render).utf8ByteSize →
      inlineKeyboardButtonOfCallbackParams p = none) ∧
    (((CallbackParams.toJson p).render).utf8ByteSize ≤ 64 →
      inlineKeyboardButtonOfCallbackParams p =
        some ⟨callbackButtonText p, (CallbackParams.toJson p).render⟩) := by
  constructor
  · intro h
    simp only [inlineKeyboardButtonOfCallbackParams]
    rw [if_pos h]
  · intro h
    simp only [inlineKeyboardButtonOfCallbackParams]
    rw [if_neg (by omega)]

/-- C3 witness: the amended theorem applied at an oversized payload and at a
payload within the ceiling. -/
theorem encode_size_ceiling_witness :
    inlineKeyboardButtonOfCallbackParams bigVote = none ∧
    inlineKeyboardButtonOfCallbackParams .BacklogStop =
      some ⟨callbackButtonText .BacklogStop, (CallbackParams.toJson .BacklogStop).render⟩ :=
  ⟨(encode_size_ceiling bigVote).1 (by decide),
   (encode_size_ceiling .BacklogStop).2 (by decide)⟩

/-- C1 counterexample: for a callback update whose payload (`"garbage"`)
fails to decode, normalization does NOT complete with an `Invalid` command —
`BotCommand` has no such variant, and the `TryFrom` chain aborts with the
propagated serde decode error. -/
theorem normalizer_malformed_callback_aborts :
    BotCommand.tryFromUpdate (.callback_query cbGarbage) = .error .serdeError := by rfl

/-- C1 (amended): in the current normalizer a callback payload that fails to
decode aborts normalization with the propagated serde error (never with
`UnsupportedUpdate`, which arises exactly for unhandled event kinds); only
the superseded `main.rs` revision maps an unparsable token to its
`Invalid` callback parameter. -/
theorem normalizer_decode_failure_behaviour :
    (∀ (cb : CallbackQuery) (d : String), cb.data = some d → decodeCallbackParams d = none →
      BotCommand.tryFromCallbackQuery cb = .error .serdeError) ∧
    (∀ u : Update, BotCommand.tryFromUpdate u = .error .unsupportedUpdate → u = .other) ∧
    (∀ (cache : LruCache Nat Main.CallbackParams) (d : String), Uuid.parse_str d = none →
      Main.extract_params cache (some d) = (some .Invalid, cache)) := by
  refine ⟨?_, ?_, ?_⟩
  · intro cb d hd hdec
    simp only [BotCommand.tryFromCallbackQuery, hd, hdec]
  · intro u h
    cases u with
    | message m =>
      exfalso
      simp only [BotCommand.tryFromUpdate, BotCommand.tryFromMessage] at h
      cases hk : m.kind with
      | text data => rw [hk] at h; simp at h
      | other => rw [hk] at h; simp at h
    | callback_query cb =>
      exfalso
      simp only [BotCommand.tryFromUpdate, BotCommand.tryFromCallbackQuery] at h
      cases hd : cb.data with
      | none => rw [hd] at h; simp at h
      | some d =>
        rw [hd] at h
        dsimp only at h
        cases hdec : decodeCallbackParams d with
        | none => rw [hdec] at h; simp at h
        | some p => rw [hdec] at h; cases p <;> simp at h
    | other => rfl
  · intro cache d h
    simp only [Main.extract_params, h]

/-- C1 witness: the amended theorem applied at the `"garbage"` payload. -/
theorem normalizer_decode_failure_behaviour_witness :
    BotCommand.tryFromCallbackQuery cbGarbage = .error .serdeError ∧
    Main.extract_params lruEmpty (some "garbage") = (some .Invalid, lruEmpty) :=
  ⟨normalizer_decode_failure_behaviour.1 cbGarbage "garbage" rfl (by decide),
   normalizer_decode_failure_behaviour.2.2 lruEmpty "garbage" (by decide)⟩

/-- C2 counterexample: with a corrupt stored record, `get_state` does NOT
return Idle — the `?` on `con.get` propagates the deserialization TypeError
to the caller (the dispatch loop). -/
theorem get_state_corrupt_record_errors :
    get_state corruptStore 7 = .error .typeError ∧
    get_state corruptStore 7 ≠ .ok UserState.idle := by
  have h : get_state corruptStore 7 = .error .typeError := by rfl
  refine ⟨h, ?_⟩
  rw [h]
  intro hh
  cases hh

/-- C2 (amended): `get` returns Idle exactly when no record is stored; a
stored record that fails to deserialize (from either reply kind) makes `get`
return the redis TypeError, which propagates to the dispatch loop. -/
theorem get_state_absent_idle_corrupt_propagates :
    (∀ (store : String → RedisValue) (uid : Int),
      store ("state:" ++ toString uid) = .nil → get_state store uid = .ok UserState.idle) ∧
    (∀ (store : String → RedisValue) (uid : Int) (s : String),
      store ("state:" ++ toString uid) = .data s → userStateFromString s = none →
      get_state store uid = .error .typeError) ∧
    (∀ (store : String → RedisValue) (uid : Int) (s : String),
      store ("state:" ++ toString uid) = .status s → userStateFromString s = none →
      get_state store uid = .error .typeError) := by
  refine ⟨?_, ?_, ?_⟩
  · intro store uid h
    simp only [get_state, optionUserStateFromRedisValue, h]
  · intro store uid s h hbad
    simp only [get_state, optionUserStateFromRedisValue, UserState.from_redis_value, h, hbad,
      Except.map]
  · intro store uid s h hbad
    simp only [get_state, optionUserStateFromRedisValue, UserState.from_redis_value, h, hbad,
      Except.map]

/-- C2 witness: the amended theorem applied at an empty store and at a store
holding an unparsable record. -/
theorem get_state_absent_idle_corrupt_propagates_witness :
    get_state emptyStore 7 = .ok UserState.idle ∧
    get_state corruptStore 8 = .error .typeError :=
  ⟨get_state_absent_idle_corrupt_propagates.1 emptyStore 7 rfl,
   get_state_absent_idle_corrupt_propagates.2.1 corruptStore 8 "garbage" rfl (by decide)⟩

/-- C4 failing input (the claim is right, the code slips): in
`InBacklog{5,5}` the user presses prev to page 0 (`BacklogPrev` carrying
`{top:5, skip:0}`) and the fetch succeeds.  `fetch_issues` answers
`StartBacklog{5,0}` because `skip == 0`, but the `transitions!` list has no
`(InBacklog, StartBacklog)` rule, so the engine answers the `Error` sentinel,
`handle_command` bails "Invalid transition" and the stored state stays
`InBacklog{5,5}` — not the `InBacklog{5,0}` of the claim — although the page
was already re-rendered to the user.  With `skip ≠ 0` (last conjunct) the
transition works as claimed. -/
theorem backlog_prev_to_page_zero_invalid_transition :
    stateHandler (.InBacklog 5 5) (.BacklogPrev cbPrevPage0 ⟨5, 0⟩) collabOk =
      .ok [Intent.renderBacklogEdit [issue1] ⟨5, 0⟩] (.StartBacklog ⟨5, 0⟩) ∧
    UserState.execute (.InBacklog 5 5) (.StartBacklog ⟨5, 0⟩) = .Error ∧
    handle_command (.InBacklog 5 5) (.BacklogPrev cbPrevPage0 ⟨5, 0⟩) collabOk =
      .fails "Invalid transition" ∧
    dispatch_next (.InBacklog 5 5) (.BacklogPrev cbPrevPage0 ⟨5, 0⟩) collabOk =
      .InBacklog 5 5 ∧
    dispatch_next (.InBacklog 5 5) (.BacklogNext cbPrevPage0 ⟨5, 10⟩) collabOk =
      .InBacklog 5 10 :=
  ⟨rfl, rfl, rfl, rfl, rfl⟩

/-- C5: in `InBacklog`, any command other than BacklogStop, BacklogNext,
BacklogPrev and BacklogVoteForIssue hits the handler's catch-all arm: no
effects, message `Noop`; the machine has no `(InBacklog, Noop)` rule, so
`handle_command` bails and the dispatch loop keeps the stored state
`InBacklog{t,s}` unchanged. -/
theorem in_backlog_other_commands_unchanged (t s : Int) (cmd : BotCommand) (c : Collab)
    (h : cmd.isBacklogAction = false) :
    handle_command_in_backlog t s cmd c = .ok [] .Noop ∧
    dispatch_next (.InBacklog t s) cmd c = .InBacklog t s := by
  have h1 : handle_command_in_backlog t s cmd c = .ok [] .Noop := by
    cases cmd <;> first | rfl | (exfalso; simp [BotCommand.isBacklogAction] at h)
  refine ⟨h1, ?_⟩
  simp only [dispatch_next, handle_command, stateHandler, h1, UserState.execute, if_true]

/-- C5 witness: a `/start` message arriving in `InBacklog{5,10}`. -/
theorem in_backlog_other_commands_unchanged_witness :
    handle_command_in_backlog 5 10 (.Start msgStart) collabOk = .ok [] .Noop ∧
    dispatch_next (.InBacklog 5 10) (.Start msgStart) collabOk = .InBacklog 5 10 :=
  in_backlog_other_commands_unchanged 5 10 (.Start msgStart) collabOk (by rfl)

/-- C6: totality of the engine: every `(state, message)` pair either falls
under a listed transition rule — and `execute` returns exactly that rule's
(non-`Error`) target — or no rule applies and `execute` returns the explicit
non-persisted `Error` sentinel; `execute` is a total function mirroring the
macro's catch-all arm, so no pair is an unhandled failure. -/
theorem engine_transition_total (s : UserState) (m : UserStateMessages) :
    (IsRule s m (s.execute m) ∧ s.execute m ≠ .Error) ∨
    (s.execute m = .Error ∧ ∀ s2, ¬ IsRule s m s2) := by
  cases s <;> cases m <;>
    first
      | exact Or.inl ⟨by constructor, by intro hh; cases hh⟩
      | exact Or.inr ⟨rfl, by intro s2 hh; cases hh⟩

/-- C8: the Error sentinel is never persisted: a successful
`handle_command` never carries it, a failed one leaves the stored record
untouched, and dispatch therefore preserves non-Error store contents. -/
theorem error_sentinel_never_persisted (state : UserState) (cmd : BotCommand) (c : Collab) :
    (∀ intents ns, handle_command state cmd c = .ok intents ns → ns ≠ .Error) ∧
    (∀ r, handle_command state cmd c = .fails r → dispatch_next state cmd c = state) ∧
    (state ≠ .Error → dispatch_next state cmd c ≠ .Error) := by
  have hok_ne : ∀ intents ns, handle_command state cmd c = .ok intents ns → ns ≠ .Error := by
    intro intents ns hok
    unfold handle_command at hok
    cases hh : stateHandler state cmd c with
    | panics => simp [hh] at hok
    | fails r => simp [hh] at hok
    | ok is m =>
      rw [hh] at hok
      dsimp only at hok
      by_cases he : state.execute m = .Error
      · rw [if_pos he] at hok
        cases hok
      · rw [if_neg he] at hok
        cases hok
        exact he
  refine ⟨hok_ne, ?_, ?_⟩
  · intro r hfail
    simp only [dispatch_next, hfail]
  · intro hne
    unfold dispatch_next
    cases hh : handle_command state cmd c with
    | panics => simp only [hh]; exact hne
    | fails r => simp only [hh]; exact hne
    | ok is ns => simp only [hh]; exact hok_ne is ns hh

/-- C8 witness: dispatching `/start` from Idle persists a non-Error state. -/
theorem error_sentinel_never_persisted_witness :
    (UserState.Idle ≠ UserState.Error) ∧
    dispatch_next .Idle (.Start msgStart) collabOk ≠ .Error :=
  ⟨(error_sentinel_never_persisted .Idle (.Start msgStart) collabOk).1
      [Intent.sendStartGreeting] .Idle (by rfl),
   (error_sentinel_never_persisted .Idle (.Start msgStart) collabOk).2.2 (by decide)⟩

/-- Popping a key that filtering has just removed finds nothing. -/
theorem find_in_filter_ne_none {K V : Type} [DecidableEq K] (l : List (K × V)) (u : K) :
    (l.filter (fun e => decide (e.1 ≠ u))).find? (fun e => decide (e.1 = u)) = none := by
  induction l with
  | nil => rfl
  | cons x xs ih =>
    by_cases hx : x.1 = u
    · simp [List.filter_cons, hx, ih]
    · simp [List.filter_cons, hx, List.find?_cons, ih]

/-- C9: the opaque-handle codec decodes each token exactly once: encoding a
(non-`Invalid`) payload under a fresh-or-not uuid stores it in the cache and
yields the uuid token; the first decode returns the payload and removes the
entry; a second decode of the same token finds nothing (`NotFound`,
surfaced as `None`). -/
theorem token_cache_decode_exactly_once
    (cache : LruCache Nat Main.CallbackParams) (p : Main.CallbackParams) (u : Nat)
    (hp : p ≠ .Invalid) (hu : Uuid.parse_str (Uuid.toString u) = some u)
    (hcap : 1 ≤ cache.cap) :
    ∃ btn : InlineKeyboardButton,
      Main.buttonOfCallbackParams cache u p = some (btn, cache.put u p) ∧
      (Main.extract_params (cache.put u p) (some btn.callback_data)).1 = some p ∧
      (Main.extract_params
        (Main.extract_params (cache.put u p) (some btn.callback_data)).2
        (some btn.callback_data)).1 = none := by
  obtain ⟨t, ht⟩ : ∃ t, Main.buttonText p = some t := by
    cases p with
    | Invalid => exact absurd rfl hp
    | BacklogNext q => exact ⟨_, rfl⟩
    | BacklogPrev q => exact ⟨_, rfl⟩
    | VoteForIssue q => exact ⟨_, rfl⟩
    | BacklogStop => exact ⟨_, rfl⟩
  obtain ⟨m, hm⟩ : ∃ m, cache.cap = m + 1 := ⟨cache.cap - 1, by omega⟩
  refine ⟨⟨t, Uuid.toString u⟩, ?_, ?_, ?_⟩
  · simp [Main.buttonOfCallbackParams, ht]
  · simp only [Main.extract_params, hu]
    simp only [LruCache.pop, LruCache.put, hm]
    rw [List.take_succ_cons]
    rw [List.find?_cons_of_pos _ (by simp)]
  · simp only [Main.extract_params, hu]
    simp only [LruCache.pop, LruCache.put, hm]
    rw [List.take_succ_cons]
    rw [List.find?_cons_of_pos _ (by simp)]
    dsimp only
    rw [find_in_filter_ne_none]

/-- C9 witness: the exactly-once theorem at the empty 100-entry cache,
payload `BacklogStop`, uuid 0. -/
theorem token_cache_decode_exactly_once_witness :
    ∃ btn : InlineKeyboardButton,
      Main.buttonOfCallbackParams lruEmpty 0 .BacklogStop =
        some (btn, lruEmpty.put 0 .BacklogStop) ∧
      (Main.extract_params (lruEmpty.put 0 .BacklogStop) (some btn.callback_data)).1 =
        some .BacklogStop ∧
      (Main.extract_params
        (Main.extract_params (lruEmpty.put 0 .BacklogStop) (some btn.callback_data)).2
        (some btn.callback_data)).1 = none :=
  token_cache_decode_exactly_once lruEmpty .BacklogStop 0 (by decide) (by decide) (by decide)
